import Mathlib

/-!
Verification of the OmniLogger firmware core: the durable record buffer,
flush policy, storage sink, radio power management, sleep cycle and health
monitor, embedded shallowly from the C++ sources (src/src/datalogger.h,
src/src/sensors.h, and the main firmware file).  Fallible C++ calls are
modelled by threading an explicit state and returning Bool results;
hardware observations (millis, WiFi status, sensor outcomes) are passed
as parameters.
-/

namespace OmniLogger

/-- State of the SD-card storage sink.  `openOk` models whether `SD.open`
succeeds (medium present and healthy); `files` maps a file name to its
lines; `openAttempts` counts calls to `SD.open` (instrumentation for
observing retries); `appends` counts data lines durably written
(instrumentation for observing successful record writes). -/
structure SD where
  openOk : Bool
  files : List (String × List String)
  openAttempts : Nat
  appends : Nat
deriving Repr, DecidableEq

/-- Replace (or create) the binding of `name` in the file table. -/
def setFile (files : List (String × List String)) (name : String)
    (lines : List String) : List (String × List String) :=
  (name, lines) :: files.filter (fun p => p.1 ≠ name)

/-- A calendar date, as produced by `localtime_r` in `writeToSD`. -/
structure Date where
  year : Nat
  month : Nat
  day : Nat
deriving Repr, DecidableEq

/-- Zero-padded decimal rendering, as done by `snprintf` with `%0Nd`. -/
def pad (w n : Nat) : String :=
  let s := toString n
  String.mk (List.replicate (w - s.length) '0') ++ s

/-- The destination file name computed in `writeToSD` and `writeHeader`:
`/data_YYYYMMDD.csv`, a function of the current date only. -/
def fileNameFor (d : Date) : String :=
  "/data_" ++ pad 4 d.year ++ pad 2 d.month ++ pad 2 d.day ++ ".csv"

/-- The `DataLogger` object state (src/src/datalogger.h).  `buffer` models
the `String buffer[MAX_BUFFER_SIZE]` array as a total map from slot index
to contents; the C++ assignment `buffer[bufferCount++] = data` is embedded
as a pointwise update at whatever index `bufferCount` holds, so an
out-of-range store is representable and observable. -/
structure DataLoggerState where
  initialized : Bool
  totalDataPoints : Nat
  buffer : Nat → String
  bufferCount : Nat
  bufferEnabled : Bool
  lastFlushTime : Nat

/-- `MAX_BUFFER_SIZE` from src/src/datalogger.h. -/
def MAX_BUFFER_SIZE : Nat := 100

/-- Pointwise array store `buffer[i] = v`. -/
def setSlot (f : Nat → String) (i : Nat) (v : String) : Nat → String :=
  fun j => if j = i then v else f j

/-- `DataLogger::writeToSD` (src/src/datalogger.h lines 92-130): fails when
not initialized; otherwise resolves the dated file name, opens it with
`FILE_APPEND` (which creates the file when absent), and appends exactly one
line.  A failed open is surfaced as `false`; there is a single open
attempt, no retry. -/
def writeToSD (date : Date) (data : String) (st : DataLoggerState) (sd : SD) :
    Bool × DataLoggerState × SD :=
  if st.initialized then
    let filename := fileNameFor date
    let sd1 := { sd with openAttempts := sd.openAttempts + 1 }
    if sd.openOk then
      let oldLines := ((sd.files.lookup filename).getD [])
      let sd2 := { sd1 with files := setFile sd1.files filename (oldLines ++ [data]),
                            appends := sd1.appends + 1 }
      (true, { st with totalDataPoints := st.totalDataPoints + 1 }, sd2)
    else
      (false, st, sd1)
  else
    (false, st, sd)

/-- `DataLogger::writeHeader` (src/src/datalogger.h lines 132-158): on the
dated file, returns `true` without writing when the file already exists;
otherwise opens it with `FILE_WRITE` and writes the single header line. -/
def writeHeader (date : Date) (header : String) (st : DataLoggerState) (sd : SD) :
    Bool × SD :=
  if st.initialized then
    let filename := fileNameFor date
    if (sd.files.lookup filename).isSome then
      (true, sd)
    else
      let sd1 := { sd with openAttempts := sd.openAttempts + 1 }
      if sd.openOk then
        (true, { sd1 with files := setFile sd1.files filename [header] })
      else
        (false, sd1)
  else
    (false, sd)

/-- The `for` loop body of `DataLogger::flushBuffer`: write each buffered
slot to SD in order, counting successes. -/
def flushWrites (date : Date) (slots : List String) (st : DataLoggerState) (sd : SD) :
    Nat × DataLoggerState × SD :=
  match slots with
  | [] => (0, st, sd)
  | r :: rest =>
    let res := writeToSD date r st sd
    let resRest := flushWrites date rest res.2.1 res.2.2
    ((if res.1 then 1 else 0) + resRest.1, resRest.2.1, resRest.2.2)

/-- `DataLogger::flushBuffer` (src/src/datalogger.h lines 172-198): fails
without touching anything when the SD card was never initialized; succeeds
trivially on an empty buffer; otherwise writes every slot `0..count-1`,
then unconditionally resets `bufferCount` to 0 and stamps `lastFlushTime`,
returning `true` iff at least one write succeeded. -/
def flushBuffer (date : Date) (st : DataLoggerState) (sd : SD) (now : Nat) :
    Bool × DataLoggerState × SD :=
  if st.initialized then
    if st.bufferCount = 0 then
      (true, st, sd)
    else
      let slots := (List.range st.bufferCount).map st.buffer
      let res := flushWrites date slots st sd
      let st2 := { res.2.1 with bufferCount := 0, lastFlushTime := now }
      (decide (0 < res.1), st2, res.2.2)
  else
    (false, st, sd)

/-- `DataLogger::logData` (src/src/datalogger.h lines 67-90): with
buffering disabled and no SD card, fail; with buffering enabled, store into
the next slot when below `MAX_BUFFER_SIZE`, otherwise call `flushBuffer`
(ignoring its result) and then store `buffer[bufferCount++] = data`
unconditionally; with buffering disabled, write directly to SD. -/
def logData (date : Date) (data : String) (st : DataLoggerState) (sd : SD)
    (now : Nat) : Bool × DataLoggerState × SD :=
  if !st.initialized && !st.bufferEnabled then
    (false, st, sd)
  else if st.bufferEnabled then
    if st.bufferCount < MAX_BUFFER_SIZE then
      (true, { st with buffer := setSlot st.buffer st.bufferCount data,
                       bufferCount := st.bufferCount + 1 }, sd)
    else
      let res := flushBuffer date st sd now
      let st1 := res.2.1
      (true, { st1 with buffer := setSlot st1.buffer st1.bufferCount data,
                        bufferCount := st1.bufferCount + 1 }, res.2.2)
  else
    writeToSD date data st sd

/-- Join file lines into the character stream returned by
`DataLogger::downloadFile`'s read loop. -/
def joinLines (lines : List String) : String :=
  String.intercalate "\n" lines

/-- `DataLogger::downloadFile` (src/src/datalogger.h lines 314-329): fails
when not initialized, otherwise opens the named file (one open attempt) and
returns its whole content; fails when the open fails or the file is
absent. -/
def downloadFile (filename : String) (st : DataLoggerState) (sd : SD) :
    (Bool × String) × SD :=
  if st.initialized then
    let sd1 := { sd with openAttempts := sd.openAttempts + 1 }
    if sd.openOk then
      match sd.files.lookup filename with
      | some lines => ((true, joinLines lines), sd1)
      | none => ((false, ""), sd1)
    else
      ((false, ""), sd1)
  else
    ((false, ""), sd)

/-- The Storage Sink's record-append path as composed by the caller
(`takeMeasurement`): `writeHeader` for the current date's file followed by
`writeToSD` of the record line, the header result being ignored just as
the caller ignores it. -/
def sinkAppend (date : Date) (hdr data : String) (st : DataLoggerState) (sd : SD) :
    Bool × DataLoggerState × SD :=
  let res := writeHeader date hdr st sd
  writeToSD date data st res.2

/-- Does `pat` occur as a contiguous substring of `s`?  This is the
observable behaviour of the C++ `String::indexOf(pat) != -1` test used by
the web handlers. -/
def hasSub (s pat : List Char) : Bool :=
  match s with
  | [] => pat.isEmpty
  | _ :: rest => pat.isPrefixOf s || hasSub rest pat

/-- `filename.indexOf("..") != -1` on the character list of a name. -/
def containsDotDot (s : String) : Bool :=
  hasSub s.data ['.', '.']

/-- `filename.indexOf("\\") != -1` on the character list of a name. -/
def containsBackslash (s : String) : Bool :=
  hasSub s.data ['\\']

/-- Split a character list into its `/`-separated path segments. -/
def segments : List Char → List (List Char)
  | [] => [[]]
  | c :: rest =>
    match segments rest with
    | [] => [[]]
    | s :: ss => if c = '/' then [] :: s :: ss else (c :: s) :: ss

/-- A name contains a parent-directory segment when splitting it on `/`
yields a component equal to `..` (the specification's notion used by the
shared read-side invariant). -/
def hasParentSegment (name : String) : Bool :=
  (segments name.data).any (fun seg => seg = ['.', '.'])

/-- Result of the `/api/download` HTTP handler. -/
inductive DownloadResult where
  | missingParam : DownloadResult
  | invalidPath : DownloadResult
  | streamed : String → DownloadResult
  | notFound : DownloadResult
deriving Repr, DecidableEq

/-- `WebServerManager::handleDownload` (src/src/sensors.h lines 2322-2345):
without a `file` argument answer 400; reject any name containing `..` or a
backslash before touching storage; otherwise normalize the name to start
with `/` and stream the file (modelled as one open attempt on the sink,
`DataLogger::streamFile` itself being a plain read of the named file),
answering 404 when it cannot be opened. -/
def handleDownload (arg : Option String) (st : DataLoggerState) (sd : SD) :
    DownloadResult × SD :=
  match arg with
  | none => (DownloadResult.missingParam, sd)
  | some filename =>
    if containsDotDot filename || containsBackslash filename then
      (DownloadResult.invalidPath, sd)
    else
      let filename := if filename.startsWith "/" then filename else "/" ++ filename
      if st.initialized then
        let sd1 := { sd with openAttempts := sd.openAttempts + 1 }
        if sd.openOk then
          match sd.files.lookup filename with
          | some lines => (DownloadResult.streamed (joinLines lines), sd1)
          | none => (DownloadResult.notFound, sd1)
        else
          (DownloadResult.notFound, sd1)
      else
        (DownloadResult.notFound, sd)

/-- Result of the `/api/data` HTTP handler. -/
inductive GetDataResult where
  | missingParam : GetDataResult
  | invalidPath : GetDataResult
  | notFound : GetDataResult
  | tooLarge : GetDataResult
  | ok : String → GetDataResult
deriving Repr, DecidableEq

/-- `WebServerManager::handleGetData` (src/src/sensors.h lines 2166-2289),
the `readFile` path: empty `file` argument answers 400; any name containing
`..` or a backslash is rejected before any file is opened; otherwise the
name is normalized and read through `DataLogger::downloadFile`, with 404 on
failure and 413 past the 50000-byte safety limit (the CSV-to-JSON
re-rendering of the content is not modelled). -/
def handleGetData (filename : String) (st : DataLoggerState) (sd : SD) :
    GetDataResult × SD :=
  if filename.length = 0 then
    (GetDataResult.missingParam, sd)
  else if containsDotDot filename || containsBackslash filename then
    (GetDataResult.invalidPath, sd)
  else
    let filename := if filename.startsWith "/" then filename else "/" ++ filename
    let res := downloadFile filename st sd
    if res.1.1 then
      if 50000 < res.1.2.length then
        (GetDataResult.tooLarge, res.2)
      else
        (GetDataResult.ok res.1.2, res.2)
    else
      (GetDataResult.notFound, res.2)

/-- `WIFI_TIMEOUT_MS` from the main firmware file: 3 minutes. -/
def WIFI_TIMEOUT_MS : Nat := 180000

/-- `DEBOUNCE_MS` from the main firmware file: 250 ms. -/
def DEBOUNCE_MS : Nat := 250

/-- `MAX_CONSECUTIVE_ERRORS` from the main firmware file: 5. -/
def MAX_CONSECUTIVE_ERRORS : Nat := 5

/-- Wraparound-tolerant elapsed time, as computed everywhere in the main
firmware file against the 32-bit `millis()` counter: `cur - start` when no
rollover, `(0xFFFFFFFF - start) + cur + 1` otherwise. -/
def elapsedMs (cur start : Nat) : Nat :=
  if start ≤ cur then cur - start else (4294967295 - start) + cur + 1

/-- 32-bit unsigned subtraction `a - b`, the value the expression
`now - lastPress` takes in the interrupt handler. -/
def usub32 (a b : Nat) : Nat :=
  if b ≤ a then a - b else a + 4294967296 - b

/-- The WiFi mode currently configured on the chip. -/
inductive WifiMode where
  | off : WifiMode
  | ap : WifiMode
  | sta : WifiMode
  | apSta : WifiMode
deriving Repr, DecidableEq

/-- Environment observations consumed by one `checkWiFiTimeout` call:
the configured mode, the number of associated AP clients
(`WiFi.softAPgetStationNum()`), and whether the station link is up
(`WiFi.status() == WL_CONNECTED`). -/
structure WifiObs where
  mode : WifiMode
  apClients : Nat
  staConnected : Bool
deriving Repr, DecidableEq

/-- Global state of the main firmware file: the logger and sink, the
RTC-retained region, the `measurements` NVS namespace, the WiFi power
controller and the health counters.  `radioPowered` models whether the
radio hardware is powered (set by `WiFi.mode` calls); `disableCount`,
`enableCount` and `restartCount` are instrumentation counting the
Enabled-to-Disabled transitions, the Disabled-to-Enabled transitions and
the `ESP.restart()` invocations; `suspended` records that
`esp_deep_sleep_start` ran. -/
structure SystemState where
  logger : DataLoggerState
  sd : SD
  rtcMeasurementCount : Nat
  rtcTimeInitFlag : Bool
  rtcLastTimestamp : Nat
  rtcErrorCount : Nat
  measurementCount : Nat
  timeInitFlag : Bool
  nvsMeasurementCount : Nat
  nvsOpen : Bool
  wifiEnabled : Bool
  radioPowered : Bool
  wifiTimeoutStart : Nat
  wifiReenableRequested : Bool
  lastButtonPress : Nat
  sensorErrors : Nat
  sdErrors : Nat
  wifiErrors : Nat
  consecutiveErrors : Nat
  disableCount : Nat
  enableCount : Nat
  restartCount : Nat
  suspended : Bool

/-- `disableWiFi` from the main firmware file: a no-op when already
disabled; otherwise powers the radio hardware off (`WiFi.mode(WIFI_OFF)`)
and clears `wifiEnabled`. -/
def disableWiFi (s : SystemState) : SystemState :=
  if s.wifiEnabled then
    { s with radioPowered := false, wifiEnabled := false,
             disableCount := s.disableCount + 1 }
  else
    s

/-- `enableWiFi` from the main firmware file: a no-op when already enabled;
otherwise re-initializes the radio (`setupWiFi`, restarting the web
server), re-arms the timeout timer and sets `wifiEnabled`. -/
def enableWiFi (now : Nat) (s : SystemState) : SystemState :=
  if s.wifiEnabled then
    s
  else
    { s with radioPowered := true, wifiTimeoutStart := now, wifiEnabled := true,
             enableCount := s.enableCount + 1 }

/-- `checkWiFiTimeout` from the main firmware file: returns immediately
when WiFi is disabled; once the wraparound-tolerant elapsed time reaches
`WIFI_TIMEOUT_MS`, looks for activity (an associated AP client in AP mode,
or an established link in STA mode), resetting the timer on activity and
calling `disableWiFi` otherwise. -/
def checkWiFiTimeout (now : Nat) (obs : WifiObs) (s : SystemState) : SystemState :=
  if s.wifiEnabled then
    if WIFI_TIMEOUT_MS ≤ elapsedMs now s.wifiTimeoutStart then
      let apActive := (obs.mode = WifiMode.ap ∨ obs.mode = WifiMode.apSta) ∧ 0 < obs.apClients
      let staActive := (obs.mode = WifiMode.sta ∨ obs.mode = WifiMode.apSta) ∧ obs.staConnected = true
      if apActive ∨ staActive then
        { s with wifiTimeoutStart := now }
      else
        disableWiFi s
    else
      s
  else
    s

/-- `wifiButtonISR` from the main firmware file: the GPIO 0 interrupt
handler.  After the debounce comparison against the volatile last-press
timestamp (32-bit wraparound handled by the `now < lastPress` disjunct) it
records the press time and latches the single-bit
`wifiReenableRequested` flag; it performs no other work. -/
def wifiButtonISR (now : Nat) (s : SystemState) : SystemState :=
  if DEBOUNCE_MS < usub32 now s.lastButtonPress ∨ now < s.lastButtonPress then
    { s with lastButtonPress := now, wifiReenableRequested := true }
  else
    s

/-- The WiFi-management portion of one `loop` iteration in the main
firmware file: consume the `wifiReenableRequested` flag (calling
`enableWiFi`), then, only while WiFi is enabled, poll
`checkWiFiTimeout`. -/
def loopWifiStep (now : Nat) (obs : WifiObs) (s : SystemState) : SystemState :=
  let s1 := if s.wifiReenableRequested then
              enableWiFi now { s with wifiReenableRequested := false }
            else s
  if s1.wifiEnabled then checkWiFiTimeout now obs s1 else s1

/-- Modelled from the spec: `DataLogger::powerDown`, called by
`enterDeepSleep` in the main firmware file, is absent from the snapshot of
src/src/datalogger.h.  Per the specification's Sleep Cycle Controller and
the lazy-sink design it powers the storage medium down without reading or
writing any buffered record, so it only drops the sink-initialized flag. -/
def powerDown (st : DataLoggerState) : DataLoggerState :=
  { st with initialized := false }

/-- `enterDeepSleep` from the main firmware file (part_005 lines 604-656):
persist the retained state (measurement count, clock flag, last epoch) into
RTC memory, sync the measurement count to NVS and close the namespace,
deliberately skip any buffer flush, power the radio down when it is active,
power the SD card down, arm the timer wake source and suspend. -/
def enterDeepSleep (epochNow : Nat) (s : SystemState) : SystemState :=
  let s1 := { s with rtcLastTimestamp := epochNow,
                     rtcTimeInitFlag := s.timeInitFlag,
                     rtcMeasurementCount := s.measurementCount,
                     nvsMeasurementCount := s.measurementCount,
                     nvsOpen := false }
  let s2 := if s1.wifiEnabled then { s1 with radioPowered := false } else s1
  let s3 := { s2 with logger := powerDown s2.logger }
  { s3 with suspended := true }

/-- Environment observations consumed by one `checkSystemHealth` call:
heap statistics, whether a station SSID is configured, whether the station
link is currently down while in STA mode, and whether the bounded
reconnect loop succeeds. -/
structure HealthObs where
  freeHeap : Nat
  minFreeHeap : Nat
  ssidConfigured : Bool
  staDisconnected : Bool
  reconnectOk : Bool
deriving Repr, DecidableEq

/-- `checkSystemHealth` from the main firmware file (part_005 lines
791-854): pings the watchdog, bumps the RTC error counter on memory
fragmentation, and in client mode with the link down attempts a bounded
reconnect — counting a WiFi error and a consecutive error, resetting the
consecutive counter only on reconnect success (AP fallback keeps it).
When `consecutiveErrors` has reached `MAX_CONSECUTIVE_ERRORS` it folds the
counter into RTC memory, persists the measurement count to NVS, closes the
namespace and restarts. -/
def checkSystemHealth (obs : HealthObs) (s : SystemState) : SystemState :=
  let s1 := if obs.minFreeHeap < 10000 then
              { s with rtcErrorCount := s.rtcErrorCount + 1 }
            else s
  let s2 :=
    if s1.wifiEnabled = true ∧ obs.ssidConfigured = true ∧ obs.staDisconnected = true then
      let t := { s1 with wifiErrors := s1.wifiErrors + 1,
                         consecutiveErrors := s1.consecutiveErrors + 1 }
      if obs.reconnectOk then { t with consecutiveErrors := 0 } else t
    else s1
  if MAX_CONSECUTIVE_ERRORS ≤ s2.consecutiveErrors then
    { s2 with rtcErrorCount := s2.rtcErrorCount + s2.consecutiveErrors,
              nvsMeasurementCount := s2.measurementCount,
              nvsOpen := false,
              restartCount := s2.restartCount + 1 }
  else
    s2

/-- The value `consecutiveErrors` holds inside `checkSystemHealth` after
the connectivity phase, right before the error-ceiling comparison. -/
def healthCeAtCheck (obs : HealthObs) (s : SystemState) : Nat :=
  if s.wifiEnabled = true ∧ obs.ssidConfigured = true ∧ obs.staDisconnected = true then
    (if obs.reconnectOk then 0 else s.consecutiveErrors + 1)
  else
    s.consecutiveErrors

/-- Environment observations consumed by one `takeMeasurement` call: how
many sensors are configured, how many produced a valid reading, and
whether the `logData` retry loop (up to 3 attempts) eventually succeeds. -/
structure MeasObs where
  sensorCount : Nat
  validReadings : Nat
  logOk : Bool
deriving Repr, DecidableEq

/-- The error-accounting skeleton of `takeMeasurement` in the main
firmware file (part_005 lines 519-602): an all-sensors failure counts a
sensor error and a consecutive error, any valid reading resets the
consecutive counter; a successful log (within the 3-attempt retry loop)
bumps the measurement count, mirrors it to RTC memory, writes it to NVS
every 10th measurement and resets the consecutive counter, while a failure
after the retries counts an SD error and a consecutive error. -/
def takeMeasurementStep (obs : MeasObs) (s : SystemState) : SystemState :=
  let s1 := if obs.validReadings = 0 ∧ 0 < obs.sensorCount then
              { s with sensorErrors := s.sensorErrors + 1,
                       consecutiveErrors := s.consecutiveErrors + 1 }
            else
              { s with consecutiveErrors := 0 }
  if obs.logOk then
    let newCount := s1.measurementCount + 1
    { s1 with measurementCount := newCount,
              rtcMeasurementCount := newCount,
              nvsMeasurementCount :=
                if newCount % 10 = 0 then newCount else s1.nvsMeasurementCount,
              consecutiveErrors := 0 }
  else
    { s1 with sdErrors := s1.sdErrors + 1,
              consecutiveErrors := s1.consecutiveErrors + 1 }

/-- Modelled from the spec: the persistent KV half of the Durable Record
Buffer.  The NVS-backed `DataLogger` that the current main firmware file
compiles against (namespace `"databuffer"`, keys `count` and `d0..d99`) is
absent from the snapshot — src/src/datalogger.h holds only the superseded
RAM-array version — so the KV layout of spec section 6 is modelled
directly: `count` holds the number of buffered entries and `slot i` the
value stored under key `d i` for `i < 100`. -/
structure KVBuffer where
  count : Nat
  slot : Nat → Option String

/-- The empty `"databuffer"` namespace: `count` is 0 and no data key is
set. -/
def kvEmpty : KVBuffer :=
  { count := 0, slot := fun _ => none }

/-- Modelled from the spec: the buffering path of the NVS `logData`
(absent from the snapshot).  A record is written under key `d count` and
`count` is incremented; the keys are `d0..d99` only, so the write happens
only below the capacity of 100. -/
def kvAppend (r : String) (kv : KVBuffer) : KVBuffer :=
  if kv.count < 100 then
    { count := kv.count + 1,
      slot := fun j => if j = kv.count then some r else kv.slot j }
  else
    kv

/-- Modelled from the spec: `readAll()` of the Durable Record Buffer reads
key `count` and then `d0..d(count-1)` in order. -/
def kvReadAll (kv : KVBuffer) : List (Option String) :=
  (List.range kv.count).map kv.slot

/-- Modelled from the spec: on boot the Buffer reloads `count` from the KV
store; the value any post-restart `bufferCount` observer sees is exactly
the persisted `count`. -/
def kvBootCount (kv : KVBuffer) : Nat :=
  kv.count

/-- Modelled from the spec: the whole NVS `DataLogger` as seen by the Flush
Policy Engine.  `kv` is the persistent buffer, `sinkOk` whether the Sink
medium can be opened, `sinkLines` how many records the Sink durably holds,
and `flushCalls` / `flushSuccesses` count flush invocations and successful
flushes (instrumentation). -/
structure NvsLogger where
  kv : KVBuffer
  sinkOk : Bool
  sinkLines : Nat
  flushCalls : Nat
  flushSuccesses : Nat

/-- Modelled from the spec: the flush algorithm of section 4.3 over the NVS
buffer.  When the Sink cannot be opened, the attempt leaves `count`
unchanged; an empty buffer flushes as a successful no-op; otherwise every
record is written to the Sink, all data keys are deleted and `count` is
reset to 0. -/
def nvsFlush (s : NvsLogger) : NvsLogger :=
  let s := { s with flushCalls := s.flushCalls + 1 }
  if s.sinkOk then
    if s.kv.count = 0 then
      { s with flushSuccesses := s.flushSuccesses + 1 }
    else
      { s with kv := kvEmpty,
               sinkLines := s.sinkLines + s.kv.count,
               flushSuccesses := s.flushSuccesses + 1 }
  else
    s

/-- Modelled from the spec: the NVS `logData` with the two append-time
flush triggers of section 4.3 (absent from the snapshot).  An append
arriving at `count = CAPACITY` first performs the synchronous forced
flush; the record is then stored when room remains; finally the threshold
trigger fires a flush as soon as `count` has reached 80. -/
def nvsLogData (r : String) (s : NvsLogger) : NvsLogger :=
  let s1 := if s.kv.count = 100 then nvsFlush s else s
  let s2 := if s1.kv.count < 100 then { s1 with kv := kvAppend r s1.kv } else s1
  if 80 ≤ s2.kv.count then nvsFlush s2 else s2

/-! Concrete fixtures used by witnesses and counterexamples. -/

/-- A fixed date. -/
def d0 : Date := { year := 2026, month := 1, day := 4 }

/-- A healthy, empty SD card. -/
def sdOk : SD := { openOk := true, files := [], openAttempts := 0, appends := 0 }

/-- An SD card on which every open fails. -/
def sdBad : SD := { openOk := false, files := [], openAttempts := 0, appends := 0 }

/-- An initialized logger with buffering on and an empty buffer. -/
def stEmpty : DataLoggerState :=
  { initialized := true, totalDataPoints := 0, buffer := fun _ => "",
    bufferCount := 0, bufferEnabled := true, lastFlushTime := 0 }

/-- An initialized logger holding two buffered records. -/
def stBuf2 : DataLoggerState :=
  { initialized := true, totalDataPoints := 0,
    buffer := setSlot (setSlot (fun _ => "") 0 "r0") 1 "r1",
    bufferCount := 2, bufferEnabled := true, lastFlushTime := 0 }

/-- A logger whose SD card never initialized, with buffering on and the
buffer at full capacity. -/
def stFull : DataLoggerState :=
  { initialized := false, totalDataPoints := 0, buffer := fun _ => "",
    bufferCount := 100, bufferEnabled := true, lastFlushTime := 0 }

/-- A baseline running system: WiFi enabled and powered, no pending
button request, no errors. -/
def sysRun : SystemState :=
  { logger := stBuf2, sd := sdOk,
    rtcMeasurementCount := 0, rtcTimeInitFlag := false, rtcLastTimestamp := 0,
    rtcErrorCount := 0, measurementCount := 42, timeInitFlag := true,
    nvsMeasurementCount := 40, nvsOpen := true,
    wifiEnabled := true, radioPowered := true, wifiTimeoutStart := 0,
    wifiReenableRequested := false, lastButtonPress := 0,
    sensorErrors := 0, sdErrors := 0, wifiErrors := 0, consecutiveErrors := 0,
    disableCount := 0, enableCount := 0, restartCount := 0, suspended := false }

/-- The running system four consecutive errors deep. -/
def sysErr4 : SystemState :=
  { sysRun with consecutiveErrors := 4 }

/-- WiFi observations showing no activity at all. -/
def obsIdle : WifiObs := { mode := WifiMode.ap, apClients := 0, staConnected := false }

/-- Health observations: plenty of memory, client mode with the link down,
and the bounded reconnect failing. -/
def obsLinkDown : HealthObs :=
  { freeHeap := 100000, minFreeHeap := 50000, ssidConfigured := true,
    staDisconnected := true, reconnectOk := false }

/-- The fresh Flush Policy Engine state over an empty NVS buffer with a
working Sink. -/
def nvsStart : NvsLogger :=
  { kv := kvEmpty, sinkOk := true, sinkLines := 0, flushCalls := 0,
    flushSuccesses := 0 }

/-! Helper lemmas about the embedded `DataLogger`. -/

/-- `writeToSD` never touches the buffer fields, never changes the medium
health, and bumps the durable-append counter exactly when it reports
success. -/
theorem writeToSD_frame (d : Date) (r : String) (st : DataLoggerState) (sd : SD) :
    (writeToSD d r st sd).2.1.initialized = st.initialized ∧
    (writeToSD d r st sd).2.1.bufferCount = st.bufferCount ∧
    (writeToSD d r st sd).2.1.buffer = st.buffer ∧
    (writeToSD d r st sd).2.1.bufferEnabled = st.bufferEnabled ∧
    (writeToSD d r st sd).2.2.openOk = sd.openOk ∧
    (writeToSD d r st sd).2.2.appends
      = sd.appends + (if (writeToSD d r st sd).1 then 1 else 0) := by
  unfold writeToSD
  by_cases hi : st.initialized <;> by_cases ho : sd.openOk <;> simp [hi, ho]

/-- The flush loop preserves the buffer fields and medium health, and the
durable-append counter grows by exactly the reported success count. -/
theorem flushWrites_spec (d : Date) (slots : List String) (st : DataLoggerState)
    (sd : SD) :
    (flushWrites d slots st sd).2.1.initialized = st.initialized ∧
    (flushWrites d slots st sd).2.1.bufferCount = st.bufferCount ∧
    (flushWrites d slots st sd).2.1.bufferEnabled = st.bufferEnabled ∧
    (flushWrites d slots st sd).2.2.openOk = sd.openOk ∧
    (flushWrites d slots st sd).2.2.appends = sd.appends + (flushWrites d slots st sd).1 := by
  induction slots generalizing st sd with
  | nil => simp [flushWrites]
  | cons r rest ih =>
    obtain ⟨w1, w2, _, w4, w5, w6⟩ := writeToSD_frame d r st sd
    obtain ⟨r1, r2, r3, r4, r5⟩ := ih (writeToSD d r st sd).2.1 (writeToSD d r st sd).2.2
    simp only [flushWrites]
    refine ⟨?_, ?_, ?_, ?_, ?_⟩
    · rw [r1, w1]
    · rw [r2, w2]
    · rw [r3, w4]
    · rw [r4, w5]
    · rw [r5, w6]
      by_cases hb : (writeToSD d r st sd).1
      · simp [hb]
        omega
      · simp [hb]

/-- Claim C2, counterexample.  The claim as stated fails on the code in two
concrete states: flushing an initialized logger with an empty buffer
returns success although zero records were durably written (the `iff`
direction fails), and flushing two buffered records while every SD open
fails returns failure with zero records written yet resets the buffer
count from 2 to 0 instead of leaving it at its pre-flush value. -/
theorem flushBuffer_claim_fails :
    ((flushBuffer d0 stEmpty sdOk 7).1 = true ∧
      (flushBuffer d0 stEmpty sdOk 7).2.2.appends = sdOk.appends) ∧
    ((flushBuffer d0 stBuf2 sdBad 7).1 = false ∧
      (flushBuffer d0 stBuf2 sdBad 7).2.2.appends = sdBad.appends ∧
      (flushBuffer d0 stBuf2 sdBad 7).2.2.files = sdBad.files ∧
      stBuf2.bufferCount = 2 ∧
      (flushBuffer d0 stBuf2 sdBad 7).2.1.bufferCount = 0) :=
  ⟨⟨rfl, rfl⟩, rfl, rfl, rfl, rfl, rfl⟩

/-- Claim C2, amended: a flush returns success iff the Sink is initialized
and either the buffer was empty or at least one record was durably
written; when the Sink could never be opened (never initialized) the
buffer count is left unchanged so the next trigger retries the whole
batch; but whenever the Sink is initialized — including a whole-flush
failure in which the medium rejects every single write — the buffer count
is reset to 0. -/
theorem flushBuffer_outcome (d : Date) (st : DataLoggerState) (sd : SD) (now : Nat) :
    ((flushBuffer d st sd now).1 = true ↔
      st.initialized = true ∧
        (st.bufferCount = 0 ∨ sd.appends < (flushBuffer d st sd now).2.2.appends)) ∧
    (st.initialized = false → (flushBuffer d st sd now).2.1.bufferCount = st.bufferCount) ∧
    (st.initialized = true → (flushBuffer d st sd now).2.1.bufferCount = 0) := by
  by_cases hi : st.initialized
  · by_cases hc : st.bufferCount = 0
    · simp [flushBuffer, hi, hc]
    · obtain ⟨_, _, _, _, f5⟩ :=
        flushWrites_spec d ((List.range st.bufferCount).map st.buffer) st sd

      simp only [flushBuffer, hi, hc, if_true, if_false, ite_true, ite_false]
      simp [f5, hc, hi]
  · simp [flushBuffer, hi]

/-- Witness for `flushBuffer_outcome`: at the concrete two-record buffer
with a failing medium, the amended claim yields that the post-flush count
is 0. -/
theorem flushBuffer_outcome_witness :
    (flushBuffer d0 stBuf2 sdBad 7).2.1.bufferCount = 0 ∧ stBuf2.initialized = true :=
  ⟨(flushBuffer_outcome d0 stBuf2 sdBad 7).2.2 rfl, rfl⟩

/-- Claim C4, code bug: with buffering enabled, the SD card never
initialized and the buffer already at `MAX_BUFFER_SIZE = 100`, `logData`
calls `flushBuffer` — which fails without clearing anything — and then
executes `buffer[bufferCount++] = data` anyway, reporting success while
pushing `bufferCount` to 101 and storing the record at slot index 100,
outside the declared array bounds 0..99.  This violates the capacity
invariant `0 ≤ count ≤ CAPACITY` the claim states. -/
theorem logData_overflow_at_capacity :
    (logData d0 "x" stFull sdBad 0).1 = true ∧
    (logData d0 "x" stFull sdBad 0).2.1.bufferCount = 101 ∧
    (logData d0 "x" stFull sdBad 0).2.1.buffer 100 = "x" ∧
    MAX_BUFFER_SIZE = 100 ∧
    stFull.bufferCount = MAX_BUFFER_SIZE :=
  ⟨rfl, rfl, rfl, rfl, rfl⟩

/-- Claim C10: with buffering enabled `logData` reports success
unconditionally — both when the record fits in the buffer and when the
buffer was full and the synchronous forced flush failed — so storage
failures are never observable through the append's return value. -/
theorem logData_true_when_buffering (d : Date) (data : String)
    (st : DataLoggerState) (sd : SD) (now : Nat)
    (h : st.bufferEnabled = true) :
    (logData d data st sd now).1 = true := by
  unfold logData
  simp only [h, Bool.not_true, Bool.and_false, Bool.false_eq_true, if_false, ite_true,
    ite_false]
  by_cases hc : st.bufferCount < MAX_BUFFER_SIZE <;> simp [hc]

/-- Witness for `logData_true_when_buffering`: the buffering-enabled
hypothesis is discharged at the full, never-initialized logger — the state
in which the forced flush durably writes nothing. -/
theorem logData_true_when_buffering_witness :
    (logData d0 "x" stFull sdBad 0).1 = true ∧ stFull.bufferEnabled = true ∧
      stFull.initialized = false :=
  ⟨logData_true_when_buffering d0 "x" stFull sdBad 0 rfl, rfl, rfl⟩

/-- Dropping every binding of `n` from the file table does not change what
any other name looks up to. -/
theorem lookup_filter_erase (files : List (String × List String)) (n n' : String)
    (h : n' ≠ n) :
    (files.filter (fun p => p.1 ≠ n)).lookup n' = files.lookup n' := by
  induction files with
  | nil => rfl
  | cons p rest ih =>
    obtain ⟨k, v⟩ := p
    simp only [ne_eq, decide_not] at ih ⊢
    by_cases hp : k = n
    · have hd : (!decide (k = n)) = false := by simp [hp]
      have hb : (n' == k) = false := beq_eq_false_iff_ne.mpr (fun e => h (e.trans hp))
      simp only [List.filter_cons, hd, Bool.false_eq_true, if_false, List.lookup, hb]
      exact ih
    · have hd : (!decide (k = n)) = true := by simp [hp]
      by_cases hq : n' = k
      · subst hq
        simp only [List.filter_cons, hd, if_true, List.lookup, beq_self_eq_true]
      · have hb : (n' == k) = false := beq_eq_false_iff_ne.mpr hq
        simp only [List.filter_cons, hd, if_true, List.lookup, hb]
        exact ih

/-- Looking up the very name just stored by `setFile` yields the new
lines. -/
theorem lookup_setFile_self (files : List (String × List String)) (n : String)
    (L : List String) :
    (setFile files n L).lookup n = some L := by
  simp only [setFile, List.lookup, beq_self_eq_true]

/-- `setFile` leaves the binding of every other name unchanged. -/
theorem lookup_setFile_ne (files : List (String × List String)) (n n' : String)
    (L : List String) (h : n' ≠ n) :
    (setFile files n L).lookup n' = files.lookup n' := by
  have hb : (n' == n) = false := beq_eq_false_iff_ne.mpr h
  simp only [setFile, List.lookup, hb]
  exact lookup_filter_erase files n n' h

/-- Claim C7: the Sink's record append (the `writeHeader`-then-`writeToSD`
sequence of the caller) targets only the file determined by the current
date; when that file does not yet exist and the medium is healthy it is
created holding exactly the header line followed by the record line; when
it exists its lines are extended by exactly one record line; and when the
open fails `writeToSD` reports the failure to the caller after a single
open attempt, changing no file — no internal retry. -/
theorem sink_append_spec (d : Date) (hdr data : String) (st : DataLoggerState)
    (sd : SD) (hinit : st.initialized = true) :
    (∀ name, name ≠ fileNameFor d →
        (sinkAppend d hdr data st sd).2.2.files.lookup name = sd.files.lookup name) ∧
    (sd.openOk = true → sd.files.lookup (fileNameFor d) = none →
        (sinkAppend d hdr data st sd).1 = true ∧
        (sinkAppend d hdr data st sd).2.2.files.lookup (fileNameFor d)
          = some [hdr, data]) ∧
    (∀ L, sd.openOk = true → sd.files.lookup (fileNameFor d) = some L →
        (sinkAppend d hdr data st sd).1 = true ∧
        (sinkAppend d hdr data st sd).2.2.files.lookup (fileNameFor d)
          = some (L ++ [data])) ∧
    (sd.openOk = false →
        writeToSD d data st sd
          = (false, st, { sd with openAttempts := sd.openAttempts + 1 })) := by
  by_cases ho : sd.openOk
  · cases hl : sd.files.lookup (fileNameFor d) with
    | none =>
      refine ⟨?_, ?_, ?_, ?_⟩
      · intro name hn
        simp only [sinkAppend, writeHeader, writeToSD, hinit, hl, ho, Option.isSome_none,
          Bool.false_eq_true, if_false, if_true, ite_true, ite_false]
        simp only [lookup_setFile_self]
        rw [lookup_setFile_ne _ _ _ _ hn, lookup_setFile_ne _ _ _ _ hn]
      · intro _ _
        constructor
        · simp [sinkAppend, writeHeader, writeToSD, hinit, hl, ho]
        · simp only [sinkAppend, writeHeader, writeToSD, hinit, hl, ho, Option.isSome_none,
            Bool.false_eq_true, if_false, if_true, ite_true, ite_false]
          simp [lookup_setFile_self]
      · intro L _ hsome
        exact absurd hsome (by simp)
      · intro hfalse
        rw [ho] at hfalse
        exact absurd hfalse (by simp)
    | some L0 =>
      refine ⟨?_, ?_, ?_, ?_⟩
      · intro name hn
        simp only [sinkAppend, writeHeader, writeToSD, hinit, hl, ho, Option.isSome_some,
          if_true, ite_true]
        rw [lookup_setFile_ne _ _ _ _ hn]
      · intro _ hnone
        exact absurd hnone (by simp)
      · intro L _ hsome
        obtain rfl : L0 = L := Option.some_injective _ hsome
        constructor
        · simp [sinkAppend, writeHeader, writeToSD, hinit, hl, ho]
        · simp only [sinkAppend, writeHeader, writeToSD, hinit, hl, ho, Option.isSome_some,
            if_true, ite_true]
          simp [hl, lookup_setFile_self]
      · intro hfalse
        rw [ho] at hfalse
        exact absurd hfalse (by simp)
  · have ho' : sd.openOk = false := by simpa using ho
    refine ⟨?_, ?_, ?_, ?_⟩
    · intro name _
      cases hl : sd.files.lookup (fileNameFor d) with
      | none =>
        simp [sinkAppend, writeHeader, writeToSD, hinit, hl, ho']
      | some L0 =>
        simp [sinkAppend, writeHeader, writeToSD, hinit, hl, ho']
    · intro htrue _
      rw [ho'] at htrue
      exact absurd htrue (by simp)
    · intro L htrue _
      rw [ho'] at htrue
      exact absurd htrue (by simp)
    · intro _
      simp [writeToSD, hinit, ho']

/-- Witness for `sink_append_spec`: appending header `H` and record `D` on
a fresh healthy card creates the dated file with exactly those two
lines. -/
theorem sink_append_spec_witness :
    stEmpty.initialized = true ∧
    (sinkAppend d0 "H" "D" stEmpty sdOk).2.2.files.lookup (fileNameFor d0)
      = some ["H", "D"] :=
  ⟨rfl, ((sink_append_spec d0 "H" "D" stEmpty sdOk rfl).2.1 rfl rfl).2⟩

/-- `segments` never returns an empty list of segments, and the first
segment is a prefix of the input. -/
theorem segments_head_isPre (l : List Char) :
    ∃ s ss, segments l = s :: ss ∧ s.isPrefixOf l = true := by
  induction l with
  | nil => exact ⟨[], [], rfl, rfl⟩
  | cons c rest ih =>
    obtain ⟨s, ss, hseg, hpre⟩ := ih
    by_cases hc : c = '/'
    · exact ⟨[], s :: ss, by simp [segments, hseg, hc], rfl⟩
    · refine ⟨c :: s, ss, by simp [segments, hseg, hc], ?_⟩
      simp [List.isPrefixOf, hpre]

/-- When splitting on `/` exhibits a `..` segment, the raw `..` substring
test used by the handlers fires as well. -/
theorem parentSegment_hasSub (l : List Char)
    (h : (segments l).any (fun seg => decide (seg = ['.', '.'])) = true) :
    hasSub l ['.', '.'] = true := by
  induction l with
  | nil => simp [segments] at h
  | cons c rest ih =>
    obtain ⟨s, ss, hseg, hpre⟩ := segments_head_isPre rest
    by_cases hc : c = '/'
    · have hrest : (segments rest).any (fun seg => decide (seg = ['.', '.'])) = true := by
        rw [hseg]
        have : segments (c :: rest) = [] :: s :: ss := by simp [segments, hseg, hc]
        rw [this] at h
        simpa using h
      have := ih hrest
      simp [hasSub, this]
    · have hcons : segments (c :: rest) = (c :: s) :: ss := by simp [segments, hseg, hc]
      rw [hcons] at h
      simp only [List.any_cons, Bool.or_eq_true, decide_eq_true_eq] at h
      rcases h with h | h
      · obtain ⟨hcdot, hsdot⟩ : c = '.' ∧ s = ['.'] := by
          cases h
          exact ⟨rfl, rfl⟩
        subst hcdot
        subst hsdot
        cases rest with
        | nil => simp [List.isPrefixOf] at hpre
        | cons b bs =>
          have hb : b = '.' := by
            simp only [List.isPrefixOf, Bool.and_eq_true, beq_iff_eq] at hpre
            exact hpre.1.symm
          subst hb
          simp [hasSub, List.isPrefixOf]
      · have hrest : (segments rest).any (fun seg => decide (seg = ['.', '.'])) = true := by
          rw [hseg]
          simp only [List.any_cons, Bool.or_eq_true]
          exact Or.inr h
        have := ih hrest
        simp [hasSub, this]

/-- A name containing a parent-directory segment is nonempty (so the
empty-parameter branch of `handleGetData` is not taken). -/
theorem hasParentSegment_length_pos (name : String)
    (h : hasParentSegment name = true) : ¬name.length = 0 := by
  intro h0
  have hd : name.data = [] := List.length_eq_zero.mp h0
  unfold hasParentSegment at h
  rw [hd] at h
  simp [segments] at h

/-- Claim C8: a requested file name containing a parent-directory segment
is rejected by both read-side handlers — the streaming download path and
the JSON read path — with the invalid-path response and with the storage
sink completely untouched (in particular, no file open is attempted). -/
theorem download_rejects_traversal (name : String) (st : DataLoggerState) (sd : SD)
    (h : hasParentSegment name = true) :
    handleDownload (some name) st sd = (DownloadResult.invalidPath, sd) ∧
    handleGetData name st sd = (GetDataResult.invalidPath, sd) := by
  have hdd : containsDotDot name = true := by
    unfold containsDotDot
    refine parentSegment_hasSub name.data ?_
    simpa [hasParentSegment] using h
  have hlen : ¬name.length = 0 := hasParentSegment_length_pos name h
  constructor
  · simp [handleDownload, hdd]
  · simp [handleGetData, hdd, hlen]

/-- Witness for `download_rejects_traversal`: the concrete request
`/../data_20260104.csv` is rejected without touching the card. -/
theorem download_rejects_traversal_witness :
    handleDownload (some "/../data_20260104.csv") stEmpty sdOk
      = (DownloadResult.invalidPath, sdOk) ∧
    hasParentSegment "/../data_20260104.csv" = true :=
  ⟨(download_rejects_traversal "/../data_20260104.csv" stEmpty sdOk (by decide)).1,
    by decide⟩

/-- Claim C5: entering deep sleep persists the retained state — the
measurement count, the time-initialized flag and the last epoch — to RTC
memory and NVS, powers the radio down exactly when it was active, and is
flush-free: the buffer count, the buffered slots and the entire storage
sink (files, open attempts, durable appends) are unchanged, so sleeping
never drains the Durable Record Buffer. -/
theorem sleep_flushes_nothing (epochNow : Nat) (s : SystemState) :
    (enterDeepSleep epochNow s).logger.bufferCount = s.logger.bufferCount ∧
    (enterDeepSleep epochNow s).logger.buffer = s.logger.buffer ∧
    (enterDeepSleep epochNow s).sd = s.sd ∧
    (enterDeepSleep epochNow s).rtcMeasurementCount = s.measurementCount ∧
    (enterDeepSleep epochNow s).rtcTimeInitFlag = s.timeInitFlag ∧
    (enterDeepSleep epochNow s).rtcLastTimestamp = epochNow ∧
    (enterDeepSleep epochNow s).nvsMeasurementCount = s.measurementCount ∧
    (s.wifiEnabled = true → (enterDeepSleep epochNow s).radioPowered = false) ∧
    (s.wifiEnabled = false →
      (enterDeepSleep epochNow s).radioPowered = s.radioPowered) ∧
    (enterDeepSleep epochNow s).suspended = true := by
  by_cases hw : s.wifiEnabled <;>
    simp [enterDeepSleep, powerDown, hw]

/-- Witness for `sleep_flushes_nothing`: on the concrete running system
(WiFi active, two records buffered) sleeping keeps the two buffered
records and powers the radio down. -/
theorem sleep_flushes_nothing_witness :
    (enterDeepSleep 1000 sysRun).logger.bufferCount = 2 ∧
    (enterDeepSleep 1000 sysRun).radioPowered = false ∧
    sysRun.wifiEnabled = true := by
  have h := sleep_flushes_nothing 1000 sysRun
  exact ⟨h.1.trans rfl, h.2.2.2.2.2.2.2.1 rfl, rfl⟩

/-- Claim C6: the radio power state machine.  With WiFi enabled, no
pending button request, the wraparound-tolerant elapsed time at or past the
180 s timeout and no observed activity (no AP client, no station link),
one loop iteration transitions Enabled to Disabled, powering the radio
hardware off, and counts exactly one disable transition; once disabled
with no pending request every further loop iteration is the identity (so
the transition happens exactly once); the interrupt handler never touches
the radio — it preserves the enablement, the power state and both
transition counters, and after the debounce comparison only latches the
single-bit flag; and a loop iteration that finds the latched flag on a
disabled radio consumes the flag and transitions Disabled to Enabled,
re-arming the timeout timer. -/
theorem radio_power_state_machine (now : Nat) (obs : WifiObs) (s : SystemState)
    (hEn : s.wifiEnabled = true)
    (hNoReq : s.wifiReenableRequested = false)
    (hElapsed : WIFI_TIMEOUT_MS ≤ elapsedMs now s.wifiTimeoutStart)
    (hNoClients : obs.apClients = 0)
    (hNoSta : obs.staConnected = false) :
    ((loopWifiStep now obs s).wifiEnabled = false ∧
      (loopWifiStep now obs s).radioPowered = false ∧
      (loopWifiStep now obs s).disableCount = s.disableCount + 1) ∧
    (∀ (n : Nat) (o : WifiObs) (t : SystemState), t.wifiEnabled = false →
      t.wifiReenableRequested = false → loopWifiStep n o t = t) ∧
    (∀ (n : Nat) (t : SystemState),
      (wifiButtonISR n t).wifiEnabled = t.wifiEnabled ∧
      (wifiButtonISR n t).radioPowered = t.radioPowered ∧
      (wifiButtonISR n t).disableCount = t.disableCount ∧
      (wifiButtonISR n t).enableCount = t.enableCount ∧
      (DEBOUNCE_MS < usub32 n t.lastButtonPress ∨ n < t.lastButtonPress →
        (wifiButtonISR n t).wifiReenableRequested = true)) ∧
    (∀ (n : Nat) (o : WifiObs) (t : SystemState), t.wifiEnabled = false →
      t.wifiReenableRequested = true →
      (loopWifiStep n o t).wifiEnabled = true ∧
      (loopWifiStep n o t).radioPowered = true ∧
      (loopWifiStep n o t).wifiReenableRequested = false ∧
      (loopWifiStep n o t).wifiTimeoutStart = n ∧
      (loopWifiStep n o t).enableCount = t.enableCount + 1) := by
  refine ⟨?_, ?_, ?_, ?_⟩
  · have hstep : loopWifiStep now obs s = checkWiFiTimeout now obs s := by
      simp [loopWifiStep, hNoReq, hEn]
    have hnoact : ¬(((obs.mode = WifiMode.ap ∨ obs.mode = WifiMode.apSta) ∧
        0 < obs.apClients) ∨
        ((obs.mode = WifiMode.sta ∨ obs.mode = WifiMode.apSta) ∧
          obs.staConnected = true)) := by
      simp [hNoClients, hNoSta]
    rw [hstep]
    simp only [checkWiFiTimeout, hEn, if_true, ite_true, hElapsed, hnoact, if_false,
      ite_false]
    simp [disableWiFi, hEn, hnoact, hElapsed]
  · intro n o t hdis hflag
    simp [loopWifiStep, hdis, hflag]
  · intro n t
    by_cases hdb : DEBOUNCE_MS < usub32 n t.lastButtonPress ∨ n < t.lastButtonPress <;>
      simp [wifiButtonISR, hdb]
  · intro n o t hdis hflag
    have hen2 : (enableWiFi n { t with wifiReenableRequested := false }).wifiEnabled
        = true := by
      simp [enableWiFi, hdis]
    simp only [loopWifiStep, hflag, if_true, ite_true, hen2]
    have htimer : (enableWiFi n { t with wifiReenableRequested := false }).wifiTimeoutStart
        = n := by
      simp [enableWiFi, hdis]
    have hcheck : checkWiFiTimeout n o (enableWiFi n { t with wifiReenableRequested := false })
        = enableWiFi n { t with wifiReenableRequested := false } := by
      unfold checkWiFiTimeout
      rw [hen2, htimer]
      simp [elapsedMs, WIFI_TIMEOUT_MS]
    rw [hcheck]
    simp [enableWiFi, hdis]

/-- Witness for `radio_power_state_machine`: with the timer started at 0
and the clock at exactly 180000 ms with an idle access point, the concrete
running system is disabled in one iteration. -/
theorem radio_power_state_machine_witness :
    (loopWifiStep 180000 obsIdle sysRun).wifiEnabled = false ∧
    (loopWifiStep 180000 obsIdle sysRun).disableCount = 1 :=
  ⟨((radio_power_state_machine 180000 obsIdle sysRun rfl rfl (by decide) rfl rfl).1).1,
    ((radio_power_state_machine 180000 obsIdle sysRun rfl rfl (by decide) rfl rfl).1).2.2⟩

/-- Claim C9: the error budget.  `takeMeasurement` increments
`consecutiveErrors` on each detected failure (all-sensor failure, then a
log failure after the retries) and resets it to zero on any success; the
health check's connectivity phase does the same for link failures, with a
successful reconnect resetting the counter; a full restart is performed
iff the counter has reached the ceiling `MAX_CONSECUTIVE_ERRORS = 5` at
the comparison — never below it — and in the restart branch the
measurement counter is persisted to NVS and the namespace is closed
immediately beforehand. -/
theorem health_error_budget (obs : HealthObs) (mobs : MeasObs) (s : SystemState) :
    ((takeMeasurementStep mobs s).consecutiveErrors =
      if mobs.logOk = true then 0
      else (if mobs.validReadings = 0 ∧ 0 < mobs.sensorCount
            then s.consecutiveErrors + 1 else 0) + 1) ∧
    ((checkSystemHealth obs s).restartCount = s.restartCount + 1 ↔
      MAX_CONSECUTIVE_ERRORS ≤ healthCeAtCheck obs s) ∧
    ((checkSystemHealth obs s).restartCount = s.restartCount ↔
      healthCeAtCheck obs s < MAX_CONSECUTIVE_ERRORS) ∧
    (MAX_CONSECUTIVE_ERRORS ≤ healthCeAtCheck obs s →
      (checkSystemHealth obs s).nvsMeasurementCount = s.measurementCount ∧
      (checkSystemHealth obs s).nvsOpen = false) ∧
    (healthCeAtCheck obs s < MAX_CONSECUTIVE_ERRORS →
      (checkSystemHealth obs s).consecutiveErrors = healthCeAtCheck obs s) := by
  by_cases hm : obs.minFreeHeap < 10000 <;>
  by_cases hw : s.wifiEnabled = true ∧ obs.ssidConfigured = true ∧
    obs.staDisconnected = true <;>
  by_cases hr : obs.reconnectOk = true <;>
  by_cases hs : mobs.validReadings = 0 ∧ 0 < mobs.sensorCount <;>
  by_cases hl : mobs.logOk = true <;>
  simp [takeMeasurementStep, checkSystemHealth, healthCeAtCheck,
    MAX_CONSECUTIVE_ERRORS, hm, hw, hr, hs, hl] <;>
  (try split_ifs) <;>
  (try simp) <;>
  omega

/-- Witness for `health_error_budget`: the system four consecutive errors
deep, observing a failed reconnect, restarts exactly once with the
measurement count 42 persisted beforehand. -/
theorem health_error_budget_witness :
    (checkSystemHealth obsLinkDown sysErr4).restartCount = sysErr4.restartCount + 1 ∧
    (checkSystemHealth obsLinkDown sysErr4).nvsMeasurementCount = 42 ∧
    healthCeAtCheck obsLinkDown sysErr4 = MAX_CONSECUTIVE_ERRORS := by
  refine ⟨?_, ?_, by decide⟩
  · exact ((health_error_budget obsLinkDown ⟨1, 1, true⟩ sysErr4).2.1).mpr (by decide)
  · exact (((health_error_budget obsLinkDown ⟨1, 1, true⟩ sysErr4).2.2.2.1)
      (by decide)).1.trans rfl

/-- Appending a batch of records into the KV buffer, starting anywhere
below capacity, stores them in order after whatever was already there. -/
theorem kvAppendAll_spec (records : List String) (kv : KVBuffer)
    (h : kv.count + records.length ≤ 100) :
    (records.foldl (fun acc r => kvAppend r acc) kv).count
      = kv.count + records.length ∧
    kvReadAll (records.foldl (fun acc r => kvAppend r acc) kv)
      = kvReadAll kv ++ records.map some := by
  induction records generalizing kv with
  | nil => simp [kvReadAll]
  | cons r rest ih =>
    have hlt : kv.count < 100 := by
      simp only [List.length_cons] at h
      omega
    have happ : kvAppend r kv
        = { count := kv.count + 1,
            slot := fun j => if j = kv.count then some r else kv.slot j } := by
      simp [kvAppend, hlt]
    have hread : kvReadAll (kvAppend r kv) = kvReadAll kv ++ [some r] := by
      rw [happ]
      simp only [kvReadAll, List.range_succ, List.map_append, List.map_cons,
        List.map_nil, ite_true, if_true]
      congr 1
      refine List.map_congr_left ?_
      intro j hj
      have : j ≠ kv.count := Nat.ne_of_lt (List.mem_range.mp hj)
      simp [this]
    have hcnt : (kvAppend r kv).count = kv.count + 1 := by rw [happ]
    have hrec := ih (kvAppend r kv) (by
      rw [hcnt]
      simp only [List.length_cons] at h
      omega)
    refine ⟨?_, ?_⟩
    · rw [List.foldl_cons, hrec.1, hcnt]
      simp only [List.length_cons]
      omega
    · rw [List.foldl_cons, hrec.2, hread]
      simp

/-- Claim C1: durability across restart.  Appending any N ≤ 100 records to
the KV-backed Durable Record Buffer with no intervening flush, then
simulating a restart, reloads `count` from the KV store as N and `readAll`
returns exactly those N records in order. -/
theorem buffer_durable_across_restart (records : List String)
    (h : records.length ≤ 100) :
    kvBootCount (records.foldl (fun acc r => kvAppend r acc) kvEmpty)
      = records.length ∧
    kvReadAll (records.foldl (fun acc r => kvAppend r acc) kvEmpty)
      = records.map some := by
  have hall := kvAppendAll_spec records kvEmpty (by simpa [kvEmpty] using h)
  refine ⟨?_, ?_⟩
  · rw [kvBootCount, hall.1]
    simp [kvEmpty]
  · rw [hall.2]
    simp [kvReadAll, kvEmpty]

/-- Witness for `buffer_durable_across_restart`: three records survive the
simulated restart in order. -/
theorem buffer_durable_across_restart_witness :
    kvBootCount (["a", "b", "c"].foldl (fun acc r => kvAppend r acc) kvEmpty) = 3 ∧
    kvReadAll (["a", "b", "c"].foldl (fun acc r => kvAppend r acc) kvEmpty)
      = [some "a", some "b", some "c"] := by
  have h := buffer_durable_across_restart ["a", "b", "c"] (by decide)
  simpa using h

/-- Strictly below the 80-record threshold, `logData` only appends: no
flush trigger fires and the Sink health is untouched. -/
theorem nvsLogData_below_threshold (rs : List String) (s : NvsLogger)
    (h : s.kv.count + rs.length ≤ 79) :
    (rs.foldl (fun acc r => nvsLogData r acc) s).kv.count
      = s.kv.count + rs.length ∧
    (rs.foldl (fun acc r => nvsLogData r acc) s).flushCalls = s.flushCalls ∧
    (rs.foldl (fun acc r => nvsLogData r acc) s).sinkOk = s.sinkOk := by
  induction rs generalizing s with
  | nil => simp
  | cons r rest ih =>
    have hlen : s.kv.count + rest.length + 1 ≤ 79 := by
      simp only [List.length_cons] at h
      omega
    have hne : ¬s.kv.count = 100 := by omega
    have hlt : s.kv.count < 100 := by omega
    have hcnt : (kvAppend r s.kv).count = s.kv.count + 1 := by simp [kvAppend, hlt]
    have hthresh : ¬80 ≤ (kvAppend r s.kv).count := by
      rw [hcnt]
      omega
    have hstep : nvsLogData r s = { s with kv := kvAppend r s.kv } := by
      simp [nvsLogData, hne, hlt, hthresh]
    have hrec := ih { s with kv := kvAppend r s.kv } (by
      show (kvAppend r s.kv).count + rest.length ≤ 79
      rw [hcnt]
      omega)
    rw [List.foldl_cons, hstep]
    refine ⟨?_, hrec.2.1, hrec.2.2⟩
    rw [hrec.1]
    simp only [hcnt, List.length_cons]
    omega

/-- Claim C3: threshold trigger correctness on the NVS Flush Policy
Engine.  From the fresh state with a working Sink, 79 appends cause no
flush; the 80th append brings `count` to the 80 percent threshold and
triggers exactly one automatic flush before returning — hence before any
81st append attempt — draining the buffer; and an append arriving at
`count = 99` with no successful flush on record (so that the buffer fills
to `CAPACITY = 100` during the call) synchronously triggers a flush before
that append returns. -/
theorem threshold_flush_correct (rs : List String) (r : String)
    (h79 : rs.length = 79) :
    ((rs.foldl (fun acc x => nvsLogData x acc) nvsStart).flushCalls = 0 ∧
      (rs.foldl (fun acc x => nvsLogData x acc) nvsStart).kv.count = 79) ∧
    ((nvsLogData r (rs.foldl (fun acc x => nvsLogData x acc) nvsStart)).flushCalls
        = 1 ∧
      (nvsLogData r (rs.foldl (fun acc x => nvsLogData x acc) nvsStart)).kv.count
        = 0) ∧
    (∀ (t : NvsLogger) (x : String), t.kv.count = 99 → t.flushSuccesses = 0 →
      (nvsLogData x t).flushCalls = t.flushCalls + 1) := by
  have hphase := nvsLogData_below_threshold rs nvsStart (by
    simp [nvsStart, kvEmpty, h79])
  have hcount : (rs.foldl (fun acc x => nvsLogData x acc) nvsStart).kv.count = 79 := by
    rw [hphase.1]
    simp [nvsStart, kvEmpty, h79]
  have hcalls : (rs.foldl (fun acc x => nvsLogData x acc) nvsStart).flushCalls = 0 := by
    rw [hphase.2.1]
    simp [nvsStart]
  have hsink : (rs.foldl (fun acc x => nvsLogData x acc) nvsStart).sinkOk = true := by
    rw [hphase.2.2]
    simp [nvsStart]
  refine ⟨⟨hcalls, hcount⟩, ?_, ?_⟩
  · set s79 := rs.foldl (fun acc x => nvsLogData x acc) nvsStart with hs79
    have hne : ¬s79.kv.count = 100 := by rw [hcount]; omega
    have hlt : s79.kv.count < 100 := by rw [hcount]; omega
    have hcnt : (kvAppend r s79.kv).count = 80 := by
      simp [kvAppend, hlt, hcount]
    have hthresh : 80 ≤ (kvAppend r s79.kv).count := by rw [hcnt]
    have hstep : nvsLogData r s79 = nvsFlush { s79 with kv := kvAppend r s79.kv } := by
      simp [nvsLogData, hne, hlt, hthresh]
    rw [hstep]
    have hc80 : ¬(kvAppend r s79.kv).count = 0 := by rw [hcnt]; omega
    constructor
    · simp [nvsFlush, hsink, hc80, hcalls]
    · simp [nvsFlush, hsink, hc80, kvEmpty]
  · intro t x h99 _
    have hne : ¬t.kv.count = 100 := by omega
    have hlt : t.kv.count < 100 := by omega
    have hcnt : (kvAppend x t.kv).count = 100 := by
      simp [kvAppend, hlt, h99]
    have hthresh : 80 ≤ (kvAppend x t.kv).count := by rw [hcnt]; omega
    have hstep : nvsLogData x t = nvsFlush { t with kv := kvAppend x t.kv } := by
      simp [nvsLogData, hne, hlt, hthresh]
    rw [hstep]
    by_cases hs : t.sinkOk <;> by_cases hz : (kvAppend x t.kv).count = 0 <;>
      simp [nvsFlush, hs, hz]

/-- Witness for `threshold_flush_correct`: with 79 identical records
appended and an 80th arriving, exactly one flush has run and the buffer is
empty. -/
theorem threshold_flush_correct_witness :
    (nvsLogData "x" ((List.replicate 79 "m").foldl
        (fun acc x => nvsLogData x acc) nvsStart)).flushCalls = 1 ∧
    (List.replicate 79 "m").length = 79 :=
  ⟨((threshold_flush_correct (List.replicate 79 "m") "x" (by simp)).2.1).1, by simp⟩

end OmniLogger

